import Mathlib

/-!
Shallow embedding of src/src/wormhole/_dilation/outbound.py — the
Outbound flow-control and fair-scheduling engine.

Modelling conventions:
- Subchannels and producers are identified by natural numbers.
- Python sets become Finset Nat (membership, insert, discard = erase).
- The dict Subchannel -> IProducer becomes an association list.
- The rotation deque becomes a list, left is next; rotate(-1) moves the
  head to the tail.
- Producer callbacks (producer.pauseProducing, producer.resumeProducing)
  and the manager send path are external collaborators: the embedding
  records them as trace events and gives them no access to the scheduler
  state. This realises the no-reentrant-pause hypothesis that the
  scheduling claims condition on.
- A Python method that can raise returns its resulting state (which may
  hold part of the mutations) together with an optional exception: a
  raise in the middle of a method keeps the mutations made before it.
- The unbounded while-loops of resumeProducing and
  _get_next_unpaused_producer are given explicit fuel; running out of
  fuel is reported as a distinct outcome, so genuine non-termination of
  the source is visible as: for every fuel the outcome is fuelOut.
-/

/-- Outbound record: only the seqnum field is read by this module; the
record type (Open, Data, Close) and its arguments are abstracted into
one payload number. -/
structure Record where
  seqnum : Nat
  payload : Nat
deriving DecidableEq

/-- Attribute names looked up on self that do not exist on the class;
such a lookup raises AttributeError in Python. -/
inductive MissingAttr
  | producer
  | unpaused_producers
deriving DecidableEq

/-- Python exceptions that the embedded methods can raise. -/
inductive PyErr
  | attributeError (a : MissingAttr)
  | keyError
  | valueError
  | typeError
  | assertionError
deriving DecidableEq

/-- Signals delivered to external collaborators. -/
inductive Event
  | pauseSig (p : Nat)
  | resumeSig (p : Nat)
  | sendRecord (r : Record)
deriving DecidableEq

/-- State of one Outbound instance, fields as in __attrs_post_init__. -/
structure OutboundState where
  outbound_queue : List Record
  next_outbound_seqnum : Nat
  queued_unsent : List Record
  subchannel_producers : List (Nat × Nat)
  paused : Bool
  all_producers : List Nat
  pull_producers : Finset Nat
  paused_push_producers : Finset Nat
  unpaused_push_producers : Finset Nat
deriving DecidableEq

/-- State created by __attrs_post_init__: everything empty, paused. -/
def initialState : OutboundState :=
  { outbound_queue := []
    next_outbound_seqnum := 0
    queued_unsent := []
    subchannel_producers := []
    paused := true
    all_producers := []
    pull_producers := ∅
    paused_push_producers := ∅
    unpaused_push_producers := ∅ }

/-- Result of a method that mutates state, signals collaborators, and may
raise. -/
structure OpResult where
  state : OutboundState
  events : List Event
  err : Option PyErr
deriving DecidableEq

/-- Outcome of the fueled resumeProducing drain loop. -/
inductive Outcome
  | returned
  | fuelOut
  | raised (e : PyErr)
deriving DecidableEq

/-- Result of a fueled loop-running method. -/
structure RunResult where
  state : OutboundState
  events : List Event
  outcome : Outcome
deriving DecidableEq

/-- The four assertions of Outbound._check_invariants, as one Bool. -/
def invariantHolds (s : OutboundState) : Bool :=
  decide (s.pull_producers ∩ s.unpaused_push_producers = (∅ : Finset Nat)) &&
  decide (s.pull_producers ∩ s.paused_push_producers = (∅ : Finset Nat)) &&
  decide (s.unpaused_push_producers ∩ s.paused_push_producers = (∅ : Finset Nat)) &&
  decide (s.pull_producers ∪ s.paused_push_producers ∪ s.unpaused_push_producers
            = s.all_producers.toFinset)

/-- Outbound.build_record: allocate the next seqnum and build the record. -/
def build_record (payload : Nat) (s : OutboundState) : Record × OutboundState :=
  (⟨s.next_outbound_seqnum, payload⟩,
   { s with next_outbound_seqnum := s.next_outbound_seqnum + 1 })

/-- Outbound.queue_record: append to the backlog. -/
def queue_record (r : Record) (s : OutboundState) : OutboundState :=
  { s with outbound_queue := s.outbound_queue ++ [r] }

/-- Outbound.subchannel_registerProducer. On a duplicate subchannel the
source evaluates self.producer, an attribute that does not exist, so an
AttributeError escapes before the intended ValueError; the dict and the
deque are mutated before the streaming branch, so the unpaused-push
branch (which reads the nonexistent self._unpaused_producers) leaves
them mutated when it raises. -/
def subchannel_registerProducer (sc producer : Nat) (streaming : Bool)
    (s : OutboundState) : OpResult :=
  if (s.subchannel_producers.lookup sc).isSome then
    ⟨s, [], some (PyErr.attributeError MissingAttr.producer)⟩
  else
    if streaming then
      if s.paused then
        if invariantHolds
            { s with subchannel_producers := s.subchannel_producers ++ [(sc, producer)]
                     all_producers := s.all_producers ++ [producer]
                     paused_push_producers :=
                       insert producer s.paused_push_producers } = false then
          ⟨{ s with subchannel_producers := s.subchannel_producers ++ [(sc, producer)]
                    all_producers := s.all_producers ++ [producer]
                    paused_push_producers := insert producer s.paused_push_producers },
           [], some PyErr.assertionError⟩
        else
          ⟨{ s with subchannel_producers := s.subchannel_producers ++ [(sc, producer)]
                    all_producers := s.all_producers ++ [producer]
                    paused_push_producers := insert producer s.paused_push_producers },
           [Event.pauseSig producer], none⟩
      else
        ⟨{ s with subchannel_producers := s.subchannel_producers ++ [(sc, producer)]
                  all_producers := s.all_producers ++ [producer] },
         [], some (PyErr.attributeError MissingAttr.unpaused_producers)⟩
    else
      if invariantHolds
          { s with subchannel_producers := s.subchannel_producers ++ [(sc, producer)]
                   all_producers := s.all_producers ++ [producer]
                   pull_producers := insert producer s.pull_producers } = false then
        ⟨{ s with subchannel_producers := s.subchannel_producers ++ [(sc, producer)]
                  all_producers := s.all_producers ++ [producer]
                  pull_producers := insert producer s.pull_producers },
         [], some PyErr.assertionError⟩
      else
        if s.paused then
          ⟨{ s with subchannel_producers := s.subchannel_producers ++ [(sc, producer)]
                    all_producers := s.all_producers ++ [producer]
                    pull_producers := insert producer s.pull_producers },
           [], none⟩
        else
          ⟨{ s with subchannel_producers := s.subchannel_producers ++ [(sc, producer)]
                    all_producers := s.all_producers ++ [producer]
                    pull_producers := insert producer s.pull_producers },
           [Event.resumeSig producer], none⟩

/-- Outbound.subchannel_unregisterProducer. dict.pop raises KeyError on a
missing key; deque.remove raises ValueError when the element is absent;
and the final discard is done on self._unpaused_producers, an attribute
that does not exist, so every call that gets that far raises
AttributeError after the dict, deque, pull and paused-push evictions have
already happened. -/
def subchannel_unregisterProducer (sc : Nat) (s : OutboundState) : OpResult :=
  match s.subchannel_producers.lookup sc with
  | none => ⟨s, [], some PyErr.keyError⟩
  | some p =>
    if p ∈ s.all_producers then
      ⟨{ s with subchannel_producers := s.subchannel_producers.eraseP (fun kv => kv.1 == sc)
                all_producers := s.all_producers.erase p
                pull_producers := s.pull_producers.erase p
                paused_push_producers := s.paused_push_producers.erase p },
       [], some (PyErr.attributeError MissingAttr.unpaused_producers)⟩
    else
      ⟨{ s with subchannel_producers := s.subchannel_producers.eraseP (fun kv => kv.1 == sc) },
       [], some PyErr.valueError⟩

/-- Outbound.subchannel_closed: checks the invariants, then unregisters
when a producer is mapped for the subchannel. The scid argument is
unused, as in the source. -/
def subchannel_closed (scid sc : Nat) (s : OutboundState) : OpResult :=
  if invariantHolds s = false then ⟨s, [], some PyErr.assertionError⟩
  else if (s.subchannel_producers.lookup sc).isSome then
    subchannel_unregisterProducer sc s
  else ⟨s, [], none⟩

/-- Outbound.handle_ack: trim the acked initial segment from the backlog
and from the replay queue. -/
def handle_ack (resp_seqnum : Nat) (s : OutboundState) : OutboundState :=
  { s with
    outbound_queue := s.outbound_queue.dropWhile (fun r => decide (r.seqnum ≤ resp_seqnum))
    queued_unsent := s.queued_unsent.dropWhile (fun r => decide (r.seqnum ≤ resp_seqnum)) }

/-- Outbound.pauseProducing: absorb a duplicate pause; otherwise set the
flag and scan the rotation for unpaused push producers. For any such
producer the source calls set.pop with an argument, which raises
TypeError before any set is mutated or any producer is signaled, so the
scan can never signal or reclassify anyone. -/
def pauseProducing (s : OutboundState) : OpResult :=
  if s.paused then ⟨s, [], none⟩
  else
    match s.all_producers.find? (fun p => decide (p ∈ s.unpaused_push_producers)) with
    | some _ => ⟨{ s with paused := true }, [], some PyErr.typeError⟩
    | none => ⟨{ s with paused := true }, [], none⟩

/-- Inner while-True loop of Outbound._get_next_unpaused_producer, on the
deque alone: take the head, rotate it to the tail, stop when the element
just rotated is eligible. Fuel bounds the number of rotations; the
source would rotate forever (or fail on an empty deque) where the fuel
runs out. -/
def rotateFind (elig : Nat → Bool) : Nat → List Nat → Option (Nat × List Nat)
  | 0, _ => none
  | _ + 1, [] => none
  | n + 1, p :: rest =>
    if elig p then some (p, rest ++ [p]) else rotateFind elig n (rest ++ [p])

/-- Result of Outbound._get_next_unpaused_producer. -/
inductive NextResult
  | noCandidate
  | found (p : Nat)
  | invariantError
  | stuck
deriving DecidableEq

/-- Outbound._get_next_unpaused_producer: assert the invariants, return
noCandidate when both eligible sets are empty, else rotate until an
eligible producer surfaces. stuck marks the states where the source
would rotate forever or index an empty deque; it cannot arise when the
invariants hold. -/
def getNextUnpausedProducer (s : OutboundState) : NextResult × OutboundState :=
  if invariantHolds s = false then (NextResult.invariantError, s)
  else if s.pull_producers = ∅ ∧ s.paused_push_producers = ∅ then
    (NextResult.noCandidate, s)
  else
    match rotateFind
        (fun p => decide (p ∈ s.pull_producers ∨ p ∈ s.paused_push_producers))
        s.all_producers.length s.all_producers with
    | some (p, d) => (NextResult.found p, { s with all_producers := d })
    | none => (NextResult.stuck, s)

/-- Drain loop of Outbound.resumeProducing: while not paused, send the
head of the replay queue if any, else fetch the next candidate from the
rotation and signal it to resume (recorded as an event; the callback
does not reenter the scheduler). -/
def resumeLoop : Nat → OutboundState → List Event → RunResult
  | 0, s, acc => ⟨s, acc, Outcome.fuelOut⟩
  | n + 1, s, acc =>
    if s.paused then ⟨s, acc, Outcome.returned⟩
    else
      match s.queued_unsent with
      | r :: rest =>
        resumeLoop n { s with queued_unsent := rest } (acc ++ [Event.sendRecord r])
      | [] =>
        match getNextUnpausedProducer s with
        | (NextResult.invariantError, s2) => ⟨s2, acc, Outcome.raised PyErr.assertionError⟩
        | (NextResult.noCandidate, s2) => ⟨s2, acc, Outcome.returned⟩
        | (NextResult.stuck, s2) => ⟨s2, acc, Outcome.fuelOut⟩
        | (NextResult.found p, s2) => resumeLoop n s2 (acc ++ [Event.resumeSig p])

/-- Outbound.resumeProducing: absorb a duplicate resume, else clear the
paused flag and run the drain loop. -/
def resumeProducing (fuel : Nat) (s : OutboundState) : RunResult :=
  if s.paused = false then ⟨s, [], Outcome.returned⟩
  else resumeLoop fuel { s with paused := false } []

/-- Outbound.use_connection: assert the replay queue is empty, extend it
with the whole backlog, then resumeProducing. Registering self with the
connection is an external call with no effect on this state. -/
def use_connection (fuel : Nat) (s : OutboundState) : RunResult :=
  if s.queued_unsent.isEmpty = false then ⟨s, [], Outcome.raised PyErr.assertionError⟩
  else resumeProducing fuel { s with queued_unsent := s.queued_unsent ++ s.outbound_queue }

/-- Outbound.stop_using_connection: clear the replay queue and pause. -/
def stop_using_connection (s : OutboundState) : OpResult :=
  pauseProducing { s with queued_unsent := [] }

/-- Outbound.stopProducing: just pauseProducing. -/
def stopProducing (s : OutboundState) : OpResult :=
  pauseProducing s

/-- One public entry point of the Outbound object, with fuel where the
source loops. -/
inductive Op
  | register (sc producer : Nat) (streaming : Bool)
  | unregister (sc : Nat)
  | closed (scid sc : Nat)
  | pause
  | resume (fuel : Nat)
  | useConn (fuel : Nat)
  | stopUsing
  | stopProd
  | ack (n : Nat)
  | queueRec (r : Record)
  | buildRec (payload : Nat)

/-- The state an entry point leaves behind, including the states left by
calls that end in an exception or that run out of fuel. -/
def applyOp : Op → OutboundState → OutboundState
  | Op.register sc p streaming, s => (subchannel_registerProducer sc p streaming s).state
  | Op.unregister sc, s => (subchannel_unregisterProducer sc s).state
  | Op.closed scid sc, s => (subchannel_closed scid sc s).state
  | Op.pause, s => (pauseProducing s).state
  | Op.resume fuel, s => (resumeProducing fuel s).state
  | Op.useConn fuel, s => (use_connection fuel s).state
  | Op.stopUsing, s => (stop_using_connection s).state
  | Op.stopProd, s => (stopProducing s).state
  | Op.ack n, s => handle_ack n s
  | Op.queueRec r, s => queue_record r s
  | Op.buildRec payload, s => (build_record payload s).2

/-- States reachable from the initial state by any sequence of public
entry points, error-ending calls included. -/
inductive Reachable : OutboundState → Prop
  | init : Reachable initialState
  | step (op : Op) (s : OutboundState) : Reachable s → Reachable (applyOp op s)

/-- Registry operations only, for the partition invariant claim. -/
inductive RegistryOp
  | register (sc producer : Nat) (streaming : Bool)
  | unregister (sc : Nat)
  | closed (scid sc : Nat)

/-- Run one registry operation. -/
def applyRegistryOp : RegistryOp → OutboundState → OpResult
  | RegistryOp.register sc p st, s => subchannel_registerProducer sc p st s
  | RegistryOp.unregister sc, s => subchannel_unregisterProducer sc s
  | RegistryOp.closed scid sc, s => subchannel_closed scid sc s

/-- Run a sequence of registry operations, requiring each to run to
completion (no exception); none when some operation raises. -/
def runToCompletion : List RegistryOp → OutboundState → Option OutboundState
  | [], s => some s
  | op :: rest, s =>
    match applyRegistryOp op s with
    | ⟨s2, _, none⟩ => runToCompletion rest s2
    | ⟨_, _, some _⟩ => none

/-- Backlog well-formedness: seqnums strictly increase left to right. -/
def seqnumSorted (l : List Record) : Prop :=
  List.Pairwise (fun a b => a.seqnum < b.seqnum) l

instance seqnumSortedDecidable (l : List Record) : Decidable (seqnumSorted l) :=
  List.instDecidablePairwise l

/-- Records carried by the send events of a trace, in order. -/
def sentRecords (evs : List Event) : List Record :=
  evs.filterMap fun e =>
    match e with
    | Event.sendRecord r => some r
    | _ => none

/-- State after registering push producer 10 on subchannel 0 while the
aggregate is paused (the initial condition). -/
def onePushState : OutboundState :=
  { outbound_queue := []
    next_outbound_seqnum := 0
    queued_unsent := []
    subchannel_producers := [(0, 10)]
    paused := true
    all_producers := [10]
    pull_producers := ∅
    paused_push_producers := {10}
    unpaused_push_producers := ∅ }

/-- onePushState with the paused flag already cleared: the state the
resumeProducing drain loop runs in. -/
def onePushUnpausedState : OutboundState :=
  { onePushState with paused := false }

/-- State after registering push producers 10 then 11 on subchannels 0
and 1 while paused; the set literal lists 11 first because 11 was
inserted second. -/
def twoPushState : OutboundState :=
  { outbound_queue := []
    next_outbound_seqnum := 0
    queued_unsent := []
    subchannel_producers := [(0, 10), (1, 11)]
    paused := true
    all_producers := [10, 11]
    pull_producers := ∅
    paused_push_producers := {11, 10}
    unpaused_push_producers := ∅ }

/-- State after registering pull producer 20 on subchannel 0 while
paused. -/
def onePullState : OutboundState :=
  { outbound_queue := []
    next_outbound_seqnum := 0
    queued_unsent := []
    subchannel_producers := [(0, 20)]
    paused := true
    all_producers := [20]
    pull_producers := {20}
    paused_push_producers := ∅
    unpaused_push_producers := ∅ }

/-- C1 evidence: with push producers 10 then 11 registered while paused,
one resume call with no reentrant pause signals 10, then 11, then 10
again, and does not return for that fuel: the first round respects
registration order, but producer 10 receives a second signal because the
loop never reclassifies a resumed producer, refuting the
exactly-one-signal-each property. -/
theorem resume_fairness_violated :
    applyOp (Op.register 1 11 true) (applyOp (Op.register 0 10 true) initialState)
        = twoPushState ∧
    (resumeProducing 3 twoPushState).events
        = [Event.resumeSig 10, Event.resumeSig 11, Event.resumeSig 10] ∧
    (resumeProducing 3 twoPushState).outcome = Outcome.fuelOut := by
  decide

/-- C2 evidence: a paused-push producer given a turn and signaled to
resume stays in paused_push and is never placed in unpaused_push (the
reclassification the spec describes is absent from the code); a pull
producer given a turn does remain in the pull set. -/
theorem resumed_push_producer_not_reclassified :
    (resumeProducing 1 twoPushState).events = [Event.resumeSig 10] ∧
    10 ∈ (resumeProducing 1 twoPushState).state.paused_push_producers ∧
    10 ∉ (resumeProducing 1 twoPushState).state.unpaused_push_producers ∧
    (resumeProducing 1 onePullState).events = [Event.resumeSig 20] ∧
    20 ∈ (resumeProducing 1 onePullState).state.pull_producers := by
  decide

/-- One iteration of the drain loop on the single-push-producer state
returns to exactly the same state after emitting one more resume
signal. -/
theorem resumeLoop_onePush_step (n : Nat) (acc : List Event) :
    resumeLoop (n + 1) onePushUnpausedState acc
      = resumeLoop n onePushUnpausedState (acc ++ [Event.resumeSig 10]) := rfl

/-- The drain loop on the single-push-producer state exhausts any amount
of fuel without returning. -/
theorem resumeLoop_onePush_fuelOut (n : Nat) :
    ∀ acc, (resumeLoop n onePushUnpausedState acc).outcome = Outcome.fuelOut := by
  induction n with
  | zero => intro acc; rfl
  | succ n ih =>
    intro acc
    rw [resumeLoop_onePush_step]
    exact ih (acc ++ [Event.resumeSig 10])

/-- C3 evidence: with one push producer registered while paused and no
producer callback reentering pauseProducing, resumeProducing performs an
unbounded number of steps: for every fuel bound the loop is still
running, so the call never returns. The producer is never removed from
paused_push, so the scheduler always reports a next candidate. -/
theorem resumeProducing_never_returns (fuel : Nat) :
    (resumeProducing fuel onePushState).outcome = Outcome.fuelOut := by
  have h : resumeProducing fuel onePushState = resumeLoop fuel onePushUnpausedState [] := rfl
  rw [h]
  exact resumeLoop_onePush_fuelOut fuel []

/-- C8 evidence: registering a second producer on subchannel 0, which
already has live producer 10, fails and leaves the state unchanged, but
the exception is an AttributeError from evaluating self.producer (an
attribute the class does not have), not the contract-violation
ValueError the source intends to raise for duplicate registration. -/
theorem duplicate_registration_attribute_error :
    (onePushState.subchannel_producers.lookup 0).isSome = true ∧
    subchannel_registerProducer 0 11 true onePushState
      = ⟨onePushState, [], some (PyErr.attributeError MissingAttr.producer)⟩ := by
  decide

/-- On a backlog with strictly increasing seqnums, trimming the acked
initial segment is the same as filtering out every entry with
seqnum ≤ m: the scan stops at the first larger seqnum, and sortedness
guarantees nothing beyond it qualifies. -/
theorem dropWhile_le_eq_filter (m : Nat) :
    ∀ l : List Record, seqnumSorted l →
      l.dropWhile (fun r => decide (r.seqnum ≤ m))
        = l.filter (fun r => decide (m < r.seqnum)) := by
  intro l hl
  induction l with
  | nil => rfl
  | cons r t ih =>
    rcases List.pairwise_cons.mp hl with ⟨hr, ht⟩
    by_cases h : r.seqnum ≤ m
    · simp only [List.dropWhile_cons, List.filter_cons, decide_eq_true h,
        decide_eq_false (Nat.not_lt.mpr h), if_true, if_false]
      exact ih ht
    · have hm : m < r.seqnum := Nat.not_le.mp h
      simp only [List.dropWhile_cons, List.filter_cons, decide_eq_false h,
        decide_eq_true hm, if_true, if_false]
      have : t.filter (fun r => decide (m < r.seqnum)) = t :=
        List.filter_eq_self.mpr fun x hx => decide_eq_true (Nat.lt_trans hm (hr x hx))
      rw [this]
      rfl

/-- Composing two backlog trims where the first predicate implies the
second collapses to the second trim alone. -/
theorem dropWhile_dropWhile_imp {α : Type} (p q : α → Bool)
    (h : ∀ a, p a = true → q a = true) :
    ∀ l : List α, (l.dropWhile p).dropWhile q = l.dropWhile q := by
  intro l
  induction l with
  | nil => rfl
  | cons a t ih =>
    by_cases hp : p a = true
    · rw [List.dropWhile_cons, if_pos hp, ih, List.dropWhile_cons, if_pos (h a hp)]
    · rw [List.dropWhile_cons, if_neg hp]

/-- C5: on backlogs sorted by seqnum, handle_ack removes exactly the
backlog and replay-queue entries with seqnum ≤ m (a filter, so the order
of the rest is preserved), is a no-op when nothing qualifies, is
idempotent on repeated equal values, and for non-decreasing ack values
the second call gives the same result as if the first had not
happened. -/
theorem handle_ack_trims_exactly (s : OutboundState) (m : Nat)
    (h1 : seqnumSorted s.outbound_queue) (h2 : seqnumSorted s.queued_unsent) :
    (handle_ack m s).outbound_queue
        = s.outbound_queue.filter (fun r => decide (m < r.seqnum)) ∧
    (handle_ack m s).queued_unsent
        = s.queued_unsent.filter (fun r => decide (m < r.seqnum)) ∧
    ((∀ r ∈ s.outbound_queue, m < r.seqnum) → (∀ r ∈ s.queued_unsent, m < r.seqnum) →
      handle_ack m s = s) ∧
    handle_ack m (handle_ack m s) = handle_ack m s ∧
    (∀ m2, m ≤ m2 → handle_ack m2 (handle_ack m s) = handle_ack m2 s) := by
  refine ⟨dropWhile_le_eq_filter m _ h1, dropWhile_le_eq_filter m _ h2, ?_, ?_, ?_⟩
  · intro hq hu
    have e1 : s.outbound_queue.dropWhile (fun r => decide (r.seqnum ≤ m))
        = s.outbound_queue := by
      cases hq2 : s.outbound_queue with
      | nil => rfl
      | cons r t =>
        have hm : m < r.seqnum := hq r (by rw [hq2]; exact List.mem_cons_self r t)
        rw [List.dropWhile_cons, if_neg (by simp [Nat.not_le.mpr hm])]
    have e2 : s.queued_unsent.dropWhile (fun r => decide (r.seqnum ≤ m))
        = s.queued_unsent := by
      cases hu2 : s.queued_unsent with
      | nil => rfl
      | cons r t =>
        have hm : m < r.seqnum := hu r (by rw [hu2]; exact List.mem_cons_self r t)
        rw [List.dropWhile_cons, if_neg (by simp [Nat.not_le.mpr hm])]
    simp only [handle_ack, e1, e2]
  · simp only [handle_ack]
    rw [dropWhile_dropWhile_imp _ _ (fun a ha => ha),
      dropWhile_dropWhile_imp _ _ (fun a ha => ha)]
  · intro m2 hm2
    have himp : ∀ r : Record, decide (r.seqnum ≤ m) = true → decide (r.seqnum ≤ m2) = true :=
      fun r hr => decide_eq_true (Nat.le_trans (of_decide_eq_true hr) hm2)
    simp only [handle_ack]
    rw [dropWhile_dropWhile_imp _ _ himp, dropWhile_dropWhile_imp _ _ himp]

/-- Backlog of three records with seqnums 0, 1, 2 and a replay queue
holding the first two, for exercising handle_ack. -/
def ackState : OutboundState :=
  { initialState with
    outbound_queue := [⟨0, 0⟩, ⟨1, 0⟩, ⟨2, 0⟩]
    queued_unsent := [⟨0, 0⟩, ⟨1, 0⟩] }

/-- Witness for C5 at the concrete three-record backlog with ack 1. -/
theorem handle_ack_trims_exactly_witness :
    seqnumSorted ackState.outbound_queue ∧
    (handle_ack 1 ackState).outbound_queue
        = ackState.outbound_queue.filter (fun r => decide (1 < r.seqnum)) ∧
    (handle_ack 1 ackState).outbound_queue = [⟨2, 0⟩] ∧
    handle_ack 1 (handle_ack 1 ackState) = handle_ack 1 ackState :=
  ⟨by decide,
   (handle_ack_trims_exactly ackState 1 (by decide) (by decide)).1,
   by decide,
   (handle_ack_trims_exactly ackState 1 (by decide) (by decide)).2.2.2.1⟩

/-- The second component of _get_next_unpaused_producer differs from its
argument at most in the rotation deque. -/
theorem getNext_state_eq (s : OutboundState) :
    ∃ d, (getNextUnpausedProducer s).2 = { s with all_producers := d } := by
  unfold getNextUnpausedProducer
  split
  · exact ⟨s.all_producers, rfl⟩
  · split
    · exact ⟨s.all_producers, rfl⟩
    · split
      · exact ⟨_, rfl⟩
      · exact ⟨s.all_producers, rfl⟩

/-- The drain loop never touches the paused flag, the producer sets, or
the replay queue. -/
theorem resumeLoop_preserves (fuel : Nat) :
    ∀ (s : OutboundState) (acc : List Event),
      (resumeLoop fuel s acc).state.paused = s.paused ∧
      (resumeLoop fuel s acc).state.unpaused_push_producers
        = s.unpaused_push_producers := by
  induction fuel with
  | zero => intro s acc; exact ⟨rfl, rfl⟩
  | succ n ih =>
    intro s acc
    rw [resumeLoop]
    split
    · exact ⟨rfl, rfl⟩
    · split
      · exact ih _ _
      · rcases hg : getNextUnpausedProducer s with ⟨nr, s3⟩
        obtain ⟨d, hd⟩ := getNext_state_eq s
        rw [hg] at hd
        simp only at hd
        subst hd
        cases nr
        · exact ⟨rfl, rfl⟩
        · exact ih _ _
        · exact ⟨rfl, rfl⟩
        · exact ⟨rfl, rfl⟩

/-- pauseProducing always leaves the paused flag set. -/
theorem pauseProducing_state_paused (s : OutboundState) :
    (pauseProducing s).state.paused = true := by
  unfold pauseProducing
  split
  · next h => exact h
  · split <;> rfl

/-- resumeProducing always leaves the paused flag cleared (producer
callbacks are external and cannot reenter). -/
theorem resumeProducing_state_unpaused (fuel : Nat) (s : OutboundState) :
    (resumeProducing fuel s).state.paused = false := by
  unfold resumeProducing
  split
  · next h => exact h
  · exact (resumeLoop_preserves fuel _ _).1

/-- A pause call on an already-paused aggregate is silently absorbed. -/
theorem pauseProducing_of_paused {s : OutboundState} (h : s.paused = true) :
    pauseProducing s = ⟨s, [], none⟩ := by
  unfold pauseProducing
  rw [if_pos h]

/-- A resume call on an already-unpaused aggregate is silently absorbed. -/
theorem resumeProducing_of_unpaused (fuel : Nat) {s : OutboundState}
    (h : s.paused = false) :
    resumeProducing fuel s = ⟨s, [], Outcome.returned⟩ := by
  unfold resumeProducing
  rw [if_pos h]

/-- C7: pauseProducing and resumeProducing are idempotent. Immediately
after any pauseProducing call the flag is set, so a repeated call
returns at the duplicate guard with the state unchanged, no signal
emitted, and no error; immediately after any resumeProducing call the
flag is cleared, so a repeated call likewise returns at once with
nothing observable. Calling either twice in a row therefore has exactly
the observable effect of calling it once. -/
theorem pause_resume_idempotent :
    (∀ s : OutboundState,
      pauseProducing (pauseProducing s).state = ⟨(pauseProducing s).state, [], none⟩) ∧
    (∀ (s : OutboundState) (fuel fuel2 : Nat),
      resumeProducing fuel2 (resumeProducing fuel s).state
        = ⟨(resumeProducing fuel s).state, [], Outcome.returned⟩) :=
  ⟨fun s => pauseProducing_of_paused (pauseProducing_state_paused s),
   fun s fuel fuel2 => resumeProducing_of_unpaused fuel2 (resumeProducing_state_unpaused fuel s)⟩

/-- subchannel_registerProducer never adds to unpaused_push_producers:
the only branch that tries reads the nonexistent _unpaused_producers and
raises first. -/
theorem register_preserves_upp (sc p : Nat) (st : Bool) (s : OutboundState) :
    (subchannel_registerProducer sc p st s).state.unpaused_push_producers
      = s.unpaused_push_producers := by
  unfold subchannel_registerProducer
  split
  · rfl
  · split
    · split
      · split <;> rfl
      · rfl
    · split
      · rfl
      · split <;> rfl

/-- subchannel_unregisterProducer never touches unpaused_push_producers:
it raises on the nonexistent _unpaused_producers before the discard. -/
theorem unregister_preserves_upp (sc : Nat) (s : OutboundState) :
    (subchannel_unregisterProducer sc s).state.unpaused_push_producers
      = s.unpaused_push_producers := by
  unfold subchannel_unregisterProducer
  split
  · rfl
  · split <;> rfl

/-- subchannel_closed never touches unpaused_push_producers. -/
theorem closed_preserves_upp (scid sc : Nat) (s : OutboundState) :
    (subchannel_closed scid sc s).state.unpaused_push_producers
      = s.unpaused_push_producers := by
  unfold subchannel_closed
  split
  · rfl
  · split
    · exact unregister_preserves_upp sc s
    · rfl

/-- pauseProducing never touches unpaused_push_producers: for a member it
would call set.pop with an argument, which raises TypeError first. -/
theorem pause_preserves_upp (s : OutboundState) :
    (pauseProducing s).state.unpaused_push_producers = s.unpaused_push_producers := by
  unfold pauseProducing
  split
  · rfl
  · split <;> rfl

/-- resumeProducing never touches unpaused_push_producers: the drain loop
signals candidates but never reclassifies them. -/
theorem resume_preserves_upp (fuel : Nat) (s : OutboundState) :
    (resumeProducing fuel s).state.unpaused_push_producers
      = s.unpaused_push_producers := by
  unfold resumeProducing
  split
  · rfl
  · exact (resumeLoop_preserves fuel _ _).2

/-- No public entry point ever adds a producer to
unpaused_push_producers. -/
theorem applyOp_preserves_upp (op : Op) (s : OutboundState) :
    (applyOp op s).unpaused_push_producers = s.unpaused_push_producers := by
  cases op with
  | register sc p st => exact register_preserves_upp sc p st s
  | unregister sc => exact unregister_preserves_upp sc s
  | closed scid sc => exact closed_preserves_upp scid sc s
  | pause => exact pause_preserves_upp s
  | resume fuel => exact resume_preserves_upp fuel s
  | useConn fuel =>
    show (use_connection fuel s).state.unpaused_push_producers = _
    unfold use_connection
    split
    · rfl
    · exact resume_preserves_upp fuel _
  | stopUsing => exact pause_preserves_upp _
  | stopProd => exact pause_preserves_upp s
  | ack n => rfl
  | queueRec r => rfl
  | buildRec payload => rfl

/-- In every reachable state the unpaused-push set is empty. -/
theorem reachable_upp_empty {s : OutboundState} (h : Reachable s) :
    s.unpaused_push_producers = ∅ := by
  induction h with
  | init => rfl
  | step op s2 _ ih => rw [applyOp_preserves_upp]; exact ih

/-- Restoring a flag value it already has is the identity. -/
theorem set_paused_true_eta {s : OutboundState} (h : s.paused = true) :
    ({ s with paused := true } : OutboundState) = s := by
  obtain ⟨q1, q2, q3, q4, pz, q6, q7, q8, q9⟩ := s
  cases pz
  · simp at h
  · rfl

/-- C10: in every state reachable by sequences of the public operations,
error-ending calls included, the unpaused_push set is empty — no
operation ever adds to it (the register path that would reads the
nonexistent _unpaused_producers and raises) — and consequently
pauseProducing only sets the aggregate paused flag: it emits no pause
signal to any producer and raises nothing. -/
theorem unpaused_push_always_empty (s : OutboundState) (h : Reachable s) :
    s.unpaused_push_producers = ∅ ∧
    pauseProducing s = ⟨{ s with paused := true }, [], none⟩ := by
  have hupp := reachable_upp_empty h
  refine ⟨hupp, ?_⟩
  by_cases hp : s.paused = true
  · rw [pauseProducing_of_paused hp, set_paused_true_eta hp]
  · have hf : s.all_producers.find?
        (fun p => decide (p ∈ s.unpaused_push_producers)) = none := by
      rw [hupp]
      refine List.find?_eq_none.mpr fun x _ => ?_
      simp
    unfold pauseProducing
    rw [if_neg hp, hf]

/-- Witness for C10 at the state reached by registering one push
producer while paused. -/
theorem unpaused_push_always_empty_witness :
    onePushState.unpaused_push_producers = ∅ ∧
    pauseProducing onePushState = ⟨{ onePushState with paused := true }, [], none⟩ := by
  have h1 := Reachable.step (Op.register 0 10 true) initialState Reachable.init
  have he : applyOp (Op.register 0 10 true) initialState = onePushState := rfl
  rw [he] at h1
  exact unpaused_push_always_empty onePushState h1

/-- Reading the invariant bit back as the four set-theoretic facts it
decides. -/
theorem invariantHolds_spec {s : OutboundState} (h : invariantHolds s = true) :
    s.pull_producers ∩ s.unpaused_push_producers = ∅ ∧
    s.pull_producers ∩ s.paused_push_producers = ∅ ∧
    s.unpaused_push_producers ∩ s.paused_push_producers = ∅ ∧
    s.pull_producers ∪ s.paused_push_producers ∪ s.unpaused_push_producers
      = s.all_producers.toFinset := by
  unfold invariantHolds at h
  simp only [Bool.and_eq_true, decide_eq_true_eq] at h
  exact ⟨h.1.1.1, h.1.1.2, h.1.2, h.2⟩

/-- A register call that completes leaves a state satisfying the
partition invariant (its own final assertion guarantees this, and the
signaling after the assertion mutates nothing). -/
theorem register_completes_inv (sc p : Nat) (st : Bool) (s : OutboundState)
    (h : (subchannel_registerProducer sc p st s).err = none) :
    invariantHolds (subchannel_registerProducer sc p st s).state = true := by
  unfold subchannel_registerProducer at h ⊢
  split_ifs at h ⊢ <;> simp_all

/-- Unregister never runs to completion: whichever branch is taken, an
exception escapes. -/
theorem unregister_always_raises (sc : Nat) (s : OutboundState) :
    (subchannel_unregisterProducer sc s).err ≠ none := by
  unfold subchannel_unregisterProducer
  split
  · simp
  · split <;> simp

/-- A subchannel_closed call that completes leaves the invariant intact:
the only completing path is the no-mapping no-op, which the entry
assertion has already checked. -/
theorem closed_completes_inv (scid sc : Nat) (s : OutboundState)
    (h0 : invariantHolds s = true)
    (h : (subchannel_closed scid sc s).err = none) :
    invariantHolds (subchannel_closed scid sc s).state = true := by
  unfold subchannel_closed at h ⊢
  by_cases hinv : invariantHolds s = false
  · rw [if_pos hinv] at h
    simp at h
  · rw [if_neg hinv] at h ⊢
    by_cases hl : (s.subchannel_producers.lookup sc).isSome = true
    · rw [if_pos hl] at h
      exact absurd h (unregister_always_raises sc s)
    · rw [if_neg hl]
      exact h0

/-- Any registry operation that runs to completion preserves the
partition invariant. -/
theorem registryOp_completes_inv (op : RegistryOp) (s : OutboundState)
    (h0 : invariantHolds s = true) (h : (applyRegistryOp op s).err = none) :
    invariantHolds (applyRegistryOp op s).state = true := by
  cases op with
  | register sc p st => exact register_completes_inv sc p st s h
  | unregister sc => exact absurd h (unregister_always_raises sc s)
  | closed scid sc => exact closed_completes_inv scid sc s h0 h

/-- Invariant preservation along a whole completed run. -/
theorem runToCompletion_inv (ops : List RegistryOp) :
    ∀ s s2 : OutboundState, invariantHolds s = true →
      runToCompletion ops s = some s2 → invariantHolds s2 = true := by
  induction ops with
  | nil =>
    intro s s2 h0 h
    unfold runToCompletion at h
    injection h with h
    rwa [h] at h0
  | cons op rest ih =>
    intro s s2 h0 h
    unfold runToCompletion at h
    split at h
    · next s3 evs heq =>
      have herr : (applyRegistryOp op s).err = none := by rw [heq]
      have hstate := registryOp_completes_inv op s h0 herr
      rw [heq] at hstate
      exact ih s3 s2 hstate h
    · exact absurd h (by simp)

/-- C4: after every sequence of register, unregister and
subchannel-closure operations that run to completion, starting from any
state satisfying the partition invariant (any mix of paused and unpaused
aggregate states), the pull, paused_push and unpaused_push sets are
pairwise disjoint and their union equals exactly the membership of the
rotation deque. -/
theorem registry_ops_preserve_partition (ops : List RegistryOp)
    (s s2 : OutboundState) (h0 : invariantHolds s = true)
    (h : runToCompletion ops s = some s2) :
    s2.pull_producers ∩ s2.unpaused_push_producers = ∅ ∧
    s2.pull_producers ∩ s2.paused_push_producers = ∅ ∧
    s2.unpaused_push_producers ∩ s2.paused_push_producers = ∅ ∧
    s2.pull_producers ∪ s2.paused_push_producers ∪ s2.unpaused_push_producers
      = s2.all_producers.toFinset :=
  invariantHolds_spec (runToCompletion_inv ops s s2 h0 h)

/-- State left by registering push producer 10, pull producer 11, and a
closure of an unmapped subchannel, all completing. -/
def regWitnessState : OutboundState :=
  { outbound_queue := []
    next_outbound_seqnum := 0
    queued_unsent := []
    subchannel_producers := [(0, 10), (1, 11)]
    paused := true
    all_producers := [10, 11]
    pull_producers := {11}
    paused_push_producers := {10}
    unpaused_push_producers := ∅ }

/-- Witness for C4 on a concrete completed run of three registry
operations from the initial state. -/
theorem registry_ops_preserve_partition_witness :
    invariantHolds initialState = true ∧
    runToCompletion
      [RegistryOp.register 0 10 true, RegistryOp.register 1 11 false,
       RegistryOp.closed 7 5] initialState = some regWitnessState ∧
    (regWitnessState.pull_producers ∩ regWitnessState.unpaused_push_producers = ∅ ∧
     regWitnessState.pull_producers ∩ regWitnessState.paused_push_producers = ∅ ∧
     regWitnessState.unpaused_push_producers ∩ regWitnessState.paused_push_producers = ∅ ∧
     regWitnessState.pull_producers ∪ regWitnessState.paused_push_producers
         ∪ regWitnessState.unpaused_push_producers
       = regWitnessState.all_producers.toFinset) :=
  ⟨by decide, rfl,
   registry_ops_preserve_partition
     [RegistryOp.register 0 10 true, RegistryOp.register 1 11 false,
      RegistryOp.closed 7 5] initialState regWitnessState (by decide) rfl⟩

/-- While the replay queue is non-empty the drain loop only emits send
events, one per record in queue order: with enough fuel it reduces to
the loop on the drained state with the send events appended. -/
theorem resumeLoop_drain (q : List Record) :
    ∀ (fuel : Nat) (s : OutboundState) (acc : List Event),
      s.queued_unsent = q → s.paused = false → q.length ≤ fuel →
      resumeLoop fuel s acc
        = resumeLoop (fuel - q.length) { s with queued_unsent := [] }
            (acc ++ q.map Event.sendRecord) := by
  induction q with
  | nil =>
    intro fuel s acc hq _ _
    have he : ({ s with queued_unsent := [] } : OutboundState) = s := by
      rw [← hq]
    rw [he]
    simp
  | cons r rest ih =>
    intro fuel s acc hq hp hlen
    cases fuel with
    | zero =>
      exfalso
      simp at hlen
    | succ n =>
      have hstep : resumeLoop (n + 1) s acc
          = resumeLoop n { s with queued_unsent := rest }
              (acc ++ [Event.sendRecord r]) := by
        rw [resumeLoop]
        rw [if_neg (by simp [hp]), hq]
      rw [hstep]
      have hlen2 : rest.length ≤ n := by
        simp only [List.length_cons] at hlen
        omega
      rw [ih n { s with queued_unsent := rest } (acc ++ [Event.sendRecord r]) rfl hp hlen2]
      simp only [List.length_cons, Nat.succ_sub_succ, List.map_cons, List.append_assoc,
        List.singleton_append]

/-- Once the replay queue is empty, the drain loop only ever appends
resume signals to the trace. -/
theorem resumeLoop_only_resumes :
    ∀ (fuel : Nat) (s : OutboundState) (acc : List Event), s.queued_unsent = [] →
      ∃ rest, (resumeLoop fuel s acc).events = acc ++ rest ∧
        ∀ e ∈ rest, ∃ p, e = Event.resumeSig p := by
  intro fuel
  induction fuel with
  | zero =>
    intro s acc _
    exact ⟨[], by simp [resumeLoop], by simp⟩
  | succ n ih =>
    intro s acc hq
    by_cases hp : s.paused = true
    · refine ⟨[], ?_, by simp⟩
      rw [resumeLoop, if_pos hp]
      simp
    · rcases hg : getNextUnpausedProducer s with ⟨nr, s3⟩
      obtain ⟨d, hd⟩ := getNext_state_eq s
      rw [hg] at hd
      simp only at hd
      subst hd
      cases nr with
      | invariantError =>
        refine ⟨[], ?_, by simp⟩
        rw [resumeLoop, if_neg hp, hq, hg]
        simp
      | noCandidate =>
        refine ⟨[], ?_, by simp⟩
        rw [resumeLoop, if_neg hp, hq, hg]
        simp
      | stuck =>
        refine ⟨[], ?_, by simp⟩
        rw [resumeLoop, if_neg hp, hq, hg]
        simp
      | found p =>
        obtain ⟨rest, hev, hres⟩ :=
          ih { s with all_producers := d } (acc ++ [Event.resumeSig p]) hq
        refine ⟨Event.resumeSig p :: rest, ?_, ?_⟩
        · rw [resumeLoop, if_neg hp, hq, hg, hev]
          simp
        · intro e he
          rcases List.mem_cons.mp he with h | h
          · exact ⟨p, h⟩
          · exact hres e h

/-- A trace of send events carries exactly the sent records. -/
theorem sentRecords_map_send (q : List Record) :
    sentRecords (q.map Event.sendRecord) = q := by
  induction q with
  | nil => rfl
  | cons r t ih =>
    unfold sentRecords at ih ⊢
    simp only [List.map_cons, List.filterMap_cons]
    rw [ih]

/-- sentRecords distributes over trace concatenation. -/
theorem sentRecords_append (l1 l2 : List Event) :
    sentRecords (l1 ++ l2) = sentRecords l1 ++ sentRecords l2 := by
  unfold sentRecords
  exact List.filterMap_append l1 l2 _

/-- A trace made only of resume signals sends nothing. -/
theorem sentRecords_of_resumes {rest : List Event}
    (h : ∀ e ∈ rest, ∃ p, e = Event.resumeSig p) : sentRecords rest = [] := by
  induction rest with
  | nil => rfl
  | cons e t ih =>
    obtain ⟨p, hp⟩ := h e (List.mem_cons_self e t)
    subst hp
    have ht := ih fun e2 he2 => h e2 (List.mem_cons_of_mem _ he2)
    unfold sentRecords at ht ⊢
    simp only [List.filterMap_cons]
    exact ht

/-- C6: when a connection is attached to a paused aggregate with an
empty replay queue, the whole backlog is replayed first: with fuel at
least the backlog length, the trace of use_connection is exactly one
send event per backlog record in backlog order followed only by resume
signals, so the replayed records go out in strictly ascending seqnum
order and no producer is offered a turn while the replay queue is
non-empty. -/
theorem use_connection_replays_in_order (s : OutboundState) (fuel : Nat)
    (hq : s.queued_unsent = []) (hp : s.paused = true)
    (hs : seqnumSorted s.outbound_queue)
    (hfuel : s.outbound_queue.length ≤ fuel) :
    ∃ rest, (use_connection fuel s).events
        = s.outbound_queue.map Event.sendRecord ++ rest ∧
      (∀ e ∈ rest, ∃ p, e = Event.resumeSig p) ∧
      sentRecords (use_connection fuel s).events = s.outbound_queue ∧
      List.Pairwise (fun a b => a.seqnum < b.seqnum)
        (sentRecords (use_connection fuel s).events) := by
  obtain ⟨oq, ns, qu, sp, pz, ap, pl, pp, up⟩ := s
  dsimp only at hq hp hs hfuel ⊢
  subst hq
  subst hp
  have h1 : use_connection fuel ⟨oq, ns, [], sp, true, ap, pl, pp, up⟩
      = resumeLoop fuel ⟨oq, ns, oq, sp, false, ap, pl, pp, up⟩ [] := rfl
  have h2 := resumeLoop_drain oq fuel ⟨oq, ns, oq, sp, false, ap, pl, pp, up⟩ []
    rfl rfl hfuel
  obtain ⟨rest, hev, hres⟩ := resumeLoop_only_resumes (fuel - oq.length)
    ⟨oq, ns, [], sp, false, ap, pl, pp, up⟩ ([] ++ oq.map Event.sendRecord) rfl
  have hev2 : (use_connection fuel ⟨oq, ns, [], sp, true, ap, pl, pp, up⟩).events
      = oq.map Event.sendRecord ++ rest := by
    rw [h1, h2]
    rw [hev]
    simp
  refine ⟨rest, hev2, hres, ?_, ?_⟩
  · rw [hev2, sentRecords_append, sentRecords_map_send, sentRecords_of_resumes hres,
      List.append_nil]
  · rw [hev2, sentRecords_append, sentRecords_map_send, sentRecords_of_resumes hres,
      List.append_nil]
    exact hs

/-- Initial state plus a three-record backlog, the situation just before
a connection attach. -/
def connState : OutboundState :=
  { initialState with outbound_queue := [⟨0, 0⟩, ⟨1, 0⟩, ⟨2, 0⟩] }

/-- Witness for C6 at a concrete three-record backlog. -/
theorem use_connection_replays_in_order_witness :
    connState.queued_unsent = [] ∧
    connState.paused = true ∧
    (∃ rest, (use_connection 5 connState).events
        = connState.outbound_queue.map Event.sendRecord ++ rest ∧
      (∀ e ∈ rest, ∃ p, e = Event.resumeSig p) ∧
      sentRecords (use_connection 5 connState).events = connState.outbound_queue ∧
      List.Pairwise (fun a b => a.seqnum < b.seqnum)
        (sentRecords (use_connection 5 connState).events)) :=
  ⟨rfl, rfl,
   use_connection_replays_in_order connState 5 rfl rfl (by decide) (by decide)⟩

/-- C9 evidence: unregistering an unmapped subchannel raises KeyError
with the state unchanged (the NotRegistered condition), but unregistering
a mapped subchannel never completes: it removes the mapping and evicts
the producer from the rotation and its set, then raises AttributeError
from discarding on the nonexistent self._unpaused_producers, and the
subchannel-closed path propagates that same exception instead of being
silent. -/
theorem unregister_raises_after_eviction :
    subchannel_unregisterProducer 99 initialState
        = ⟨initialState, [], some PyErr.keyError⟩ ∧
    subchannel_unregisterProducer 0 onePushState
        = ⟨{ onePushState with
              subchannel_producers := []
              all_producers := []
              paused_push_producers := ∅ }, [],
           some (PyErr.attributeError MissingAttr.unpaused_producers)⟩ ∧
    (subchannel_closed 5 0 onePushState).err
        = some (PyErr.attributeError MissingAttr.unpaused_producers) := by
  decide
